import Mathlib

/-!
Shallow embedding of the payment-checkout core of the `api-demo` repository:
the idempotency-key resolver (`src/lib/paymentsIdempotency.ts`), the
transaction gateway adapter (`src/lib/rede.ts`), and the checkout
orchestrator with its schema-tolerant store (`src/api/payments.ts`),
together with theorems about the behaviour of those functions.

Modelling conventions: JavaScript strings are Lean `String`s, nullable
values are `Option`, thrown Postgres errors are `Except` values carrying
the driver error code (`getPgErrorCode`), database query results and the
gateway HTTP exchange are explicit oracle parameters, and the entropy the
mock adapter draws (`Date.now()`, `randomBytes`) is an explicit argument.
-/

namespace ApiDemo

/-! ## Basic string helpers (src/lib/validators.ts, src/lib/rede.ts) -/

/-- ASCII whitespace, the class relevant to the strings this API
    handles; used to model JavaScript `String.prototype.trim`. -/
def isSpaceChar (c : Char) : Bool :=
  c == ' ' || c == '\t' || c == '\n' || c == '\r'

/-- JavaScript `value.trim()`: strip leading and trailing whitespace. -/
def jsTrim (s : String) : String :=
  String.mk (((s.data.dropWhile isSpaceChar).reverse.dropWhile isSpaceChar).reverse)

/-- Model of `onlyDigits`: keeps the decimal digits of a string
    (`String(value).replace(/\D+/g, "")`). -/
def isDigitChar (c : Char) : Bool :=
  decide ('0' ≤ c) && decide (c ≤ '9')

def onlyDigits (s : String) : String :=
  String.mk (s.data.filter isDigitChar)

/-- Model of `sanitizeString(value, maxLen)`: trim, empty becomes null, truncate. -/
def sanitizeString (value : Option String) (maxLen : Nat) : Option String :=
  let str := jsTrim (value.getD "")
  if str = "" then none
  else some (String.mk (str.data.take maxLen))

/-! ## Idempotency key resolver (src/lib/paymentsIdempotency.ts) -/

/-- The character class `[a-zA-Z0-9._:-]` of `normalizeIdempotencyKey`. -/
def isIdemAllowedChar (c : Char) : Bool :=
  (decide ('a' ≤ c) && decide (c ≤ 'z')) ||
  (decide ('A' ≤ c) && decide (c ≤ 'Z')) ||
  (decide ('0' ≤ c) && decide (c ≤ '9')) ||
  c == '.' || c == '_' || c == ':' || c == '-'

/-- Model of `raw.replace(/[^a-zA-Z0-9._:-]/g, "-")`. -/
def replaceDisallowed (l : List Char) : List Char :=
  l.map (fun c => if isIdemAllowedChar c then c else '-')

/-- The dash-run replacement of `normalizeIdempotencyKey` (a global regex
    replacing one-or-more dashes by "-"): collapse each run of dashes to a
    single dash.  `prevDash` records whether the previous character was a
    dash already emitted for the current run. -/
def collapseDashesAux (prevDash : Bool) : List Char → List Char
  | [] => []
  | c :: rest =>
    if c == '-' then
      if prevDash then collapseDashesAux true rest
      else '-' :: collapseDashesAux true rest
    else c :: collapseDashesAux false rest

def collapseDashes (l : List Char) : List Char :=
  collapseDashesAux false l

/-- Model of `normalizeIdempotencyKey` from src/lib/paymentsIdempotency.ts:
    trim; empty input is null; replace disallowed characters by `-`,
    collapse dash runs, truncate to 120; shorter than 8 is null. -/
def normalizeIdempotencyKey (value : String) : Option String :=
  let raw := jsTrim value
  if raw = "" then none
  else
    let normalized := String.mk ((collapseDashes (replaceDisallowed raw.data)).take 120)
    if normalized.length < 8 then none else some normalized

/-- Model of `getCheckoutResponseHttpStatus` from src/lib/paymentsIdempotency.ts. -/
def getCheckoutResponseHttpStatus (status : String) : Nat :=
  if status = "processing" then 202
  else if status = "provider_unavailable" then 502
  else 200

/-- The idempotency-key step of `paymentsHandler` (src/api/payments.ts,
    lines 842-865): an explicit raw key that normalizes to null is a
    400 `invalid_idempotency_key` client error; an absent raw key falls
    back to the automatic key. -/
def resolveRequestIdempotencyKey (rawIdempotencyKey : String)
    (automaticKey : String) : Except (Nat × String) String :=
  let hasExplicitIdempotencyKey : Bool := rawIdempotencyKey ≠ ""
  let explicitIdempotencyKey := normalizeIdempotencyKey rawIdempotencyKey
  if hasExplicitIdempotencyKey && explicitIdempotencyKey.isNone then
    .error (400, "invalid_idempotency_key")
  else
    .ok (explicitIdempotencyKey.getD automaticKey)

/-! ## Gateway configuration (src/lib/rede.ts) -/

/-- Model of `Math.trunc` on a (finite) JavaScript number. -/
def jsTrunc (q : ℚ) : ℤ :=
  if q < 0 then ⌈q⌉ else ⌊q⌋

/-- Model of `parseTimeoutMs` from src/lib/rede.ts.  The argument is the result of
    `Number(raw)`; `none` stands for a non-finite result (NaN/Infinity). -/
def parseTimeoutMs (parsed : Option ℚ) : ℤ :=
  match parsed with
  | none => 15000
  | some q =>
    if q < 1000 then 15000
    else if q > 60000 then 60000
    else jsTrunc q

/-- The `timeoutMs` field computed by `getRedeConfig`:
    `parseTimeoutMs(normalizeEnvValue(env("REDE_TIMEOUT_MS", "15000")))`.
    The outer `none` stands for the environment variable being unset, in
    which case the fallback string "15000" is parsed. -/
def getRedeConfigTimeoutMs (redeTimeoutMsEnv : Option (Option ℚ)) : ℤ :=
  match redeTimeoutMsEnv with
  | none => parseTimeoutMs (some 15000)
  | some parsed => parseTimeoutMs parsed

/-! ## Transaction gateway adapter, mock mode (src/lib/rede.ts) -/

structure RedeCreditTransactionRequest where
  amount : Int
  reference : String
  installments : Int
  cardHolderName : String
  cardNumber : String
  expirationMonth : String
  expirationYear : String
  securityCode : String
  capture : Bool
  softDescriptor : Option String
deriving Repr, DecidableEq

/-- The fields of a (normalized) `RedeTransactionResponse` that the
    repository reads; `threeDSecureUrl` models `threeDSecure?.url`. -/
structure RedeTransactionResponse where
  tid : Option String
  reference : Option String
  returnCode : Option String
  returnMessage : Option String
  authorizationCode : Option String
  brand : Option String
  threeDSecureUrl : Option String
  mock : Option Bool
  mockMaskedCard : Option String
deriving Repr, DecidableEq

structure RedeProviderResult where
  ok : Bool
  httpStatus : Nat
  data : RedeTransactionResponse
deriving Repr, DecidableEq

/-- Model of `maskCard` from src/lib/rede.ts. -/
def maskCard (value : String) : String :=
  let digits := onlyDigits value
  if digits = "" then ""
  else
    String.mk (digits.data.take 6) ++ "******" ++
      String.mk (digits.data.drop (digits.data.length - 4))

/-- Model of `inferBrand` from src/lib/rede.ts. -/
def inferBrand (cardNumber : String) : String :=
  let digits := (onlyDigits cardNumber).data
  if digits.head? == some '4' then "Visa"
  else if digits.head? == some '5'
      && (digits.drop 1).head?.any (fun c => decide ('1' ≤ c) && decide (c ≤ '5')) then
    "Mastercard"
  else if digits.head? == some '3'
      && (digits.drop 1).head?.any (fun c => c == '4' || c == '7') then
    "Amex"
  else if digits.head? == some '6' then "Discover"
  else "Unknown"

/-- The entropy `createMockCreditTransaction` draws from its environment:
    `Date.now().toString(36).toUpperCase()` and two `randomBytes` draws
    (two bytes for the tid suffix, three bytes for the authorization code
    of an approved transaction). -/
structure MockEntropy where
  nowBase36 : String
  tidRandomHex : String
  authRandomHex : String
deriving Repr, DecidableEq

/-- Model of `createMockCreditTransaction` from src/lib/rede.ts, with the entropy
    it draws (timestamp and random bytes) made an explicit argument. -/
def createMockCreditTransaction (payload : RedeCreditTransactionRequest)
    (entropy : MockEntropy) : RedeProviderResult :=
  let digits := onlyDigits payload.cardNumber
  let suffix := String.mk (digits.data.drop (digits.data.length - 4))
  let tid := "MOCK" ++ entropy.nowBase36 ++ entropy.tidRandomHex
  let brand := inferBrand digits
  if digits = "" || digits.length < 13 then
    { ok := false, httpStatus := 422,
      data := { tid := some tid, reference := some payload.reference,
                returnCode := some "14",
                returnMessage := some "Invalid card number",
                authorizationCode := none, brand := some brand,
                threeDSecureUrl := none, mock := some true,
                mockMaskedCard := some (maskCard payload.cardNumber) } }
  else if suffix = "0000" then
    { ok := true, httpStatus := 200,
      data := { tid := some tid, reference := some payload.reference,
                returnCode := some "05",
                returnMessage := some "Transaction denied (mock)",
                authorizationCode := some "", brand := some brand,
                threeDSecureUrl := none, mock := some true,
                mockMaskedCard := some (maskCard payload.cardNumber) } }
  else if suffix = "1111" then
    { ok := true, httpStatus := 200,
      data := { tid := some tid, reference := some payload.reference,
                returnCode := some "220",
                returnMessage := some "Authentication required (mock)",
                authorizationCode := some "", brand := some brand,
                threeDSecureUrl :=
                  some ("https://mock-gateway.local/3ds/" ++ payload.reference),
                mock := some true,
                mockMaskedCard := some (maskCard payload.cardNumber) } }
  else
    { ok := true, httpStatus := 200,
      data := { tid := some tid, reference := some payload.reference,
                returnCode := some "00",
                returnMessage := some "Approved (mock)",
                authorizationCode := some entropy.authRandomHex,
                brand := some brand, threeDSecureUrl := none,
                mock := some true,
                mockMaskedCard := some (maskCard payload.cardNumber) } }

/-- The invocation-independent business fields of a mock provider result:
    ok flag, HTTP status, return code, return message, 3-D-Secure URL,
    brand and echoed reference. -/
def mockBusinessFields (r : RedeProviderResult) :
    Bool × Nat × Option String × Option String × Option String ×
      Option String × Option String :=
  (r.ok, r.httpStatus, r.data.returnCode, r.data.returnMessage,
    r.data.threeDSecureUrl, r.data.brand, r.data.reference)

/-! ## Checkout record store (src/api/payments.ts) -/

/-- The columns of `payment_checkouts` selected by the lookup queries
    (`CheckoutStateRow` in src/api/payments.ts). -/
structure CheckoutStateRow where
  id : String
  lead_id : Option String
  reference : String
  status : String
  amount_cents : Int
  installments : Int
  provider_tid : Option String
  provider_return_code : Option String
  provider_return_message : Option String
  provider_authorization_code : Option String
  provider_three_d_secure_url : Option String
deriving Repr, DecidableEq

/-- Result shape of `loadCheckoutByIdempotencyKey`. -/
structure KeyLookupResult where
  available : Bool
  checkout : Option CheckoutStateRow
deriving Repr, DecidableEq

/-- Model of `loadCheckoutByIdempotencyKey` from src/api/payments.ts: the argument
    is the raw outcome of the select (`Except` error = thrown Postgres
    error code); a missing-column error 42703 is mapped to
    `available = false` rather than rethrown. -/
def loadCheckoutByIdempotencyKey
    (dbResult : Except String (Option CheckoutStateRow)) :
    Except String KeyLookupResult :=
  match dbResult with
  | .ok row => .ok { available := true, checkout := row }
  | .error code =>
    if code = "42703" then .ok { available := false, checkout := none }
    else .error code

/-- Model of `loadCheckoutByReference` from src/api/payments.ts: the primary query
    filters by reference and lead id; on a 42703 missing-column error the
    fallback query drops the lead filter and selects `null::uuid` as the
    lead id. -/
def loadCheckoutByReference
    (primaryDb : Except String (Option CheckoutStateRow))
    (fallbackDb : Except String (Option CheckoutStateRow)) :
    Except String (Option CheckoutStateRow) :=
  match primaryDb with
  | .ok row => .ok row
  | .error code =>
    if code ≠ "42703" then .error code
    else
      match fallbackDb with
      | .ok row => .ok (row.map fun r => { r with lead_id := none })
      | .error c => .error c

/-- One column-set attempt of `insertProcessingCheckout`
    (the options of `buildCheckoutInsertSql`). -/
structure InsertAttempt where
  includeLeadId : Bool
  includeIdempotency : Bool
deriving Repr, DecidableEq

/-- The column list produced by `buildCheckoutInsertSql` for an attempt. -/
def checkoutInsertColumns (attempt : InsertAttempt) : List String :=
  (if attempt.includeLeadId then ["lead_id"] else []) ++
  ["course_id", "course_slug", "course_name", "amount_cents",
   "installments", "reference", "status", "customer_name",
   "customer_email", "customer_phone", "customer_cpf",
   "card_holder_name", "card_last4", "card_bin"] ++
  (if attempt.includeIdempotency then ["idempotency_key"] else []) ++
  ["source_url", "provider_response"]

/-- The `filter`/`findIndex` deduplication of the attempts array in
    `insertProcessingCheckout`: keep each attempt whose index equals the
    index of its first occurrence, i.e. drop attempts already seen. -/
def keepFirstOccurrencesAux (seen : List InsertAttempt) :
    List InsertAttempt → List InsertAttempt
  | [] => []
  | a :: rest =>
    if a ∈ seen then keepFirstOccurrencesAux seen rest
    else a :: keepFirstOccurrencesAux (a :: seen) rest

def keepFirstOccurrences (l : List InsertAttempt) : List InsertAttempt :=
  keepFirstOccurrencesAux [] l

/-- The ordered attempt list of `insertProcessingCheckout`: full column
    set first, then without `idempotency_key`, then also without
    `lead_id`, deduplicated keeping first occurrences. -/
def insertAttempts (idempotencyAvailable : Bool) : List InsertAttempt :=
  keepFirstOccurrences
    [⟨true, idempotencyAvailable⟩, ⟨true, false⟩, ⟨false, false⟩]

structure CheckoutInsertOutcome where
  checkoutId : Option String
  reusedCheckout : Option CheckoutStateRow
  idempotencyPersisted : Bool
deriving Repr, DecidableEq

/-- Errors escaping `insertProcessingCheckout`: a rethrown Postgres error,
    or the fatal `payment_checkout_schema_incompatible` error raised when
    every attempt in the list has failed. -/
inductive CheckoutInsertError where
  | pgError (code : String)
  | schemaIncompatible
deriving Repr, DecidableEq

/-- The database responses `insertProcessingCheckout` consumes: the insert
    statement per column-set attempt (returning the new row id), and the
    raw select behind the re-lookup performed after a 23505 unique-index
    conflict. -/
structure InsertEnv where
  dbInsert : InsertAttempt → Except String String
  conflictLookupDb : Except String (Option CheckoutStateRow)

/-- The attempt loop of `insertProcessingCheckout` (src/api/payments.ts,
    lines 617-650): success returns the fresh id; a 23505 error on an
    attempt that included the idempotency column triggers a re-lookup by
    key and returns the existing record when found; a 42703 error moves to
    the next attempt; any other error is rethrown; an exhausted list is
    the fatal schema-incompatible error. -/
def insertProcessingLoop (env : InsertEnv) :
    List InsertAttempt → Except CheckoutInsertError CheckoutInsertOutcome
  | [] => .error .schemaIncompatible
  | attempt :: rest =>
    match env.dbInsert attempt with
    | .ok id =>
      .ok { checkoutId := some id, reusedCheckout := none,
            idempotencyPersisted := attempt.includeIdempotency }
    | .error errorCode =>
      if errorCode = "23505" ∧ attempt.includeIdempotency then
        match loadCheckoutByIdempotencyKey env.conflictLookupDb with
        | .error c => .error (.pgError c)
        | .ok lookup =>
          match lookup.checkout with
          | some checkout =>
            .ok { checkoutId := some checkout.id,
                  reusedCheckout := some checkout,
                  idempotencyPersisted := true }
          | none =>
            if errorCode = "42703" then insertProcessingLoop env rest
            else .error (.pgError errorCode)
      else if errorCode = "42703" then insertProcessingLoop env rest
      else .error (.pgError errorCode)

/-- Model of `insertProcessingCheckout` from src/api/payments.ts. -/
def insertProcessingCheckout (env : InsertEnv) (idempotencyAvailable : Bool) :
    Except CheckoutInsertError CheckoutInsertOutcome :=
  insertProcessingLoop env (insertAttempts idempotencyAvailable)

/-! ## Lead payment projection updates (src/api/payments.ts) -/

/-- The two updates the orchestrator issues against `lead_enrollments`:
    the settle update (src/api/payments.ts, lines 1136-1147) and the
    provider-failure update (lines 1059-1069). -/
inductive LeadPaymentUpdate where
  | settle (status : String) (reference : String) (tid : Option String)
      (returnCode : Option String) (returnMessage : Option String)
  | providerFailure (reference : String) (message : String)
deriving Repr, DecidableEq

/-- The status a `LeadPaymentUpdate` writes to `payment_status`. -/
def leadUpdateStatus : LeadPaymentUpdate → String
  | .settle status _ _ _ _ => status
  | .providerFailure _ _ => "provider_unavailable"

/-- The payment projection columns of a `lead_enrollments` row.
    `paid_at` is a timestamp, modelled as a natural number. -/
structure LeadPaymentProjection where
  payment_status : Option String
  payment_reference : Option String
  payment_tid : Option String
  payment_return_code : Option String
  payment_return_message : Option String
  paid_at : Option Nat
deriving Repr, DecidableEq

/-- Row semantics of the two `update lead_enrollments` statements.  The
    settle update sets
    `paid_at = case when status = 'approved' then coalesce(paid_at, now())
    else paid_at end`; the provider-failure update does not mention
    `paid_at`. -/
def applyLeadPaymentUpdate (row : LeadPaymentProjection)
    (u : LeadPaymentUpdate) (now : Nat) : LeadPaymentProjection :=
  match u with
  | .settle status reference tid returnCode returnMessage =>
    { payment_status := some status,
      payment_reference := some reference,
      payment_tid := tid,
      payment_return_code := returnCode,
      payment_return_message := returnMessage,
      paid_at :=
        if status = "approved" then some (row.paid_at.getD now)
        else row.paid_at }
  | .providerFailure reference message =>
    { payment_status := some "provider_unavailable",
      payment_reference := some reference,
      payment_tid := none,
      payment_return_code := none,
      payment_return_message := some message,
      paid_at := row.paid_at }

/-! ## Checkout orchestrator (src/api/payments.ts, lines 842-1189) -/

/-- Model of `String(data.returnCode || "").trim()`. -/
def getReturnCode (data : RedeTransactionResponse) : String :=
  jsTrim (data.returnCode.getD "")

/-- Model of `String(data.returnMessage || "").trim()`. -/
def getReturnMessage (data : RedeTransactionResponse) : String :=
  jsTrim (data.returnMessage.getD "")

/-- Model of `getThreeDSecureUrl`: `sanitizeString(data?.threeDSecure?.url, 500)`. -/
def getThreeDSecureUrl (data : RedeTransactionResponse) : Option String :=
  sanitizeString data.threeDSecureUrl 500

/-- The settle status computation of `paymentsHandler` (lines 1095-1097):
    `approved ? "approved" : requiresAction ? "pending_authentication"
    : "declined"`. -/
def settleStatus (providerData : RedeTransactionResponse) : String :=
  let approved := getReturnCode providerData = "00"
  let requiresAction := (getThreeDSecureUrl providerData).isSome
  if approved then "approved"
  else if requiresAction then "pending_authentication"
  else "declined"

/-- JavaScript `value || fallback` on an integer column (0 is falsy). -/
def jsOrInt (value fallback : Int) : Int :=
  if value = 0 then fallback else value

/-- JavaScript `value || null` on a string (empty string is falsy). -/
def jsOrStr (value : String) : Option String :=
  if value = "" then none else some value

/-- The subset of the JSON body built by `buildPaymentResponse` that the
    verified claims are about. -/
structure PaymentResponseBody where
  approved : Bool
  status : String
  checkoutId : Option String
  amountCents : Int
  installments : Int
  reference : Option String
  tid : Option String
  authorizationCode : Option String
  returnCode : Option String
  returnMessage : Option String
  requiresAction : Bool
  redirectUrl : Option String
  idempotencyKey : String
  idempotentReused : Bool
  idempotencyPersisted : Bool
deriving Repr, DecidableEq

structure PaymentResponseInput where
  status : String
  checkoutId : Option String
  amountCents : Int
  installments : Int
  reference : Option String
  tid : Option String
  authorizationCode : Option String
  returnCode : Option String
  returnMessage : Option String
  redirectUrl : Option String
  idempotencyKey : String
  idempotentReused : Bool
  idempotencyPersisted : Bool

/-- Model of `buildPaymentResponse` from src/api/payments.ts (claim-relevant
    fields). -/
def buildPaymentResponse (input : PaymentResponseInput) : PaymentResponseBody :=
  { approved := input.status = "approved",
    status := input.status,
    checkoutId := input.checkoutId,
    amountCents := input.amountCents,
    installments := input.installments,
    reference := input.reference,
    tid := input.tid,
    authorizationCode := input.authorizationCode,
    returnCode := input.returnCode,
    returnMessage := input.returnMessage,
    requiresAction := input.status = "pending_authentication",
    redirectUrl := input.redirectUrl,
    idempotencyKey := input.idempotencyKey,
    idempotentReused := input.idempotentReused,
    idempotencyPersisted := input.idempotencyPersisted }

/-- Outcome of a handler run: a JSON success body with its HTTP status, or
    an error response (`fail` / explicit error JSON) with status and error
    code. -/
inductive HandlerResult where
  | success (httpStatus : Nat) (body : PaymentResponseBody)
  | failure (httpStatus : Nat) (code : String)
deriving Repr, DecidableEq

/-- Side effects of the checkout phase on persistent storage and the
    gateway. -/
inductive Effect where
  | insertCheckout
  | chargeGateway
  | updateCheckoutStatus (checkoutId : String) (status : String)
  | updateLeadPayment (leadId : String) (update : LeadPaymentUpdate)
deriving Repr, DecidableEq

/-- Result of `getRedeConfig()` as seen by the handler: success carries whether the
    configured environment is `production`; failure is a thrown
    configuration error. -/
inductive RedeConfigOutcome where
  | ok (environmentIsProduction : Bool)
  | error
deriving Repr, DecidableEq

/-- Request-derived inputs of the checkout phase (everything computed
    before line 872 of src/api/payments.ts). -/
structure CheckoutPhaseInput where
  leadId : String
  amountCents : Int
  installments : Int
  idempotencyKey : String
  reference : String
  providerIsRede : Bool
  redeConfig : RedeConfigOutcome
  isProductionRuntime : Bool

/-- External-world responses the checkout phase consumes: raw database
    results for the two key lookups and the reference lookup (primary and
    missing-column fallback), the insert statements, the gateway
    exchange (`Except` error = thrown network/timeout failure), and
    whether each of the four follow-up update statements succeeds. -/
structure HandlerEnv where
  keyLookupDb1 : Except String (Option CheckoutStateRow)
  schemaReady : Bool
  keyLookupDb2 : Except String (Option CheckoutStateRow)
  refLookupDb : Except String (Option CheckoutStateRow)
  refLookupFallbackDb : Except String (Option CheckoutStateRow)
  insertEnv : InsertEnv
  gateway : Except Unit RedeProviderResult
  checkoutUpdateOk : Bool
  leadUpdateOk : Bool
  failureCheckoutUpdateOk : Bool
  failureLeadUpdateOk : Bool

/-- Lines 874-892 of src/api/payments.ts: the idempotency-key lookup, the
    re-lookup after an opportunistic schema repair, and the by-reference
    fallback.  Returns `idempotencyPersisted` and the found record. -/
def resolveExistingCheckout (env : HandlerEnv) :
    Except String (Bool × Option CheckoutStateRow) :=
  match loadCheckoutByIdempotencyKey env.keyLookupDb1 with
  | .error c => .error c
  | .ok lookup1 =>
    let afterRepair : Except String (Bool × Option CheckoutStateRow) :=
      if lookup1.available then .ok (true, lookup1.checkout)
      else if env.schemaReady then
        match loadCheckoutByIdempotencyKey env.keyLookupDb2 with
        | .error c => .error c
        | .ok lookup2 => .ok (lookup2.available, lookup2.checkout)
      else .ok (false, lookup1.checkout)
    match afterRepair with
    | .error c => .error c
    | .ok (persisted, existing) =>
      if existing.isNone && !persisted then
        match loadCheckoutByReference env.refLookupDb env.refLookupFallbackDb with
        | .error c => .error c
        | .ok fromReference => .ok (persisted, fromReference)
      else .ok (persisted, existing)

/-- Model of `credentialsError` of the handler (lines 1099-1101). -/
def credentialsError (input : CheckoutPhaseInput)
    (providerResult : RedeProviderResult) : Bool :=
  let returnCode := getReturnCode providerResult.data
  let authError := returnCode = "25" || returnCode = "26"
  input.providerIsRede && !providerResult.ok &&
    (authError || providerResult.httpStatus == 401)

/-- Lines 1014-1189 of src/api/payments.ts: invoke the gateway, settle the
    checkout record and the lead projection, and build the response.  A
    thrown gateway error becomes the 502 `payment_provider_unavailable`
    path; update failures after a gateway response are logged but do not
    change the response. -/
def chargeAndSettle (input : CheckoutPhaseInput) (env : HandlerEnv)
    (checkoutId : Option String) (idempotencyPersisted : Bool) :
    HandlerResult × List Effect :=
  match env.gateway with
  | .error _ =>
    let checkoutEffects :=
      match checkoutId with
      | some id =>
        if env.failureCheckoutUpdateOk then
          [Effect.updateCheckoutStatus id "provider_unavailable"]
        else []
      | none => []
    let leadEffects :=
      if env.failureLeadUpdateOk then
        [Effect.updateLeadPayment input.leadId
          (.providerFailure input.reference "Provider request failed")]
      else []
    (.failure 502 "payment_provider_unavailable",
      Effect.insertCheckout :: Effect.chargeGateway ::
        (checkoutEffects ++ leadEffects))
  | .ok providerResult =>
    let providerData := providerResult.data
    let returnCode := getReturnCode providerData
    let returnMessage := getReturnMessage providerData
    let tid := sanitizeString providerData.tid 120
    let authorizationCode := sanitizeString providerData.authorizationCode 40
    let threeDSecureUrl := getThreeDSecureUrl providerData
    let status := settleStatus providerData
    let checkoutEffects :=
      match checkoutId with
      | some id =>
        if env.checkoutUpdateOk then [Effect.updateCheckoutStatus id status]
        else []
      | none => []
    let leadEffects :=
      if env.leadUpdateOk then
        [Effect.updateLeadPayment input.leadId
          (.settle status input.reference tid (jsOrStr returnCode)
            (jsOrStr returnMessage))]
      else []
    let effects :=
      Effect.insertCheckout :: Effect.chargeGateway ::
        (checkoutEffects ++ leadEffects)
    if credentialsError input providerResult then
      (.failure 500 "payment_provider_credentials_invalid", effects)
    else
      (.success 200
        (buildPaymentResponse
          { status := status, checkoutId := checkoutId,
            amountCents := input.amountCents,
            installments := input.installments,
            reference := some input.reference, tid := tid,
            authorizationCode := authorizationCode,
            returnCode := jsOrStr returnCode,
            returnMessage := jsOrStr returnMessage,
            redirectUrl := if threeDSecureUrl.isSome then threeDSecureUrl else none,
            idempotencyKey := input.idempotencyKey,
            idempotentReused := false,
            idempotencyPersisted := idempotencyPersisted }),
       effects)

/-- Lines 931-1012 of src/api/payments.ts: provider configuration checks,
    then the `processing` insert; an insert-level reuse (unique-index
    race) is returned without contacting the gateway; otherwise the
    charge-and-settle path runs. -/
def freshPathConfigGate (input : CheckoutPhaseInput) : Option HandlerResult :=
  if input.providerIsRede then
    match input.redeConfig with
    | .error => some (.failure 500 "payment_provider_not_configured")
    | .ok environmentIsProduction =>
      if input.isProductionRuntime && !environmentIsProduction then
        some (.failure 500 "payment_provider_environment_mismatch")
      else none
  else none

def freshPath (input : CheckoutPhaseInput) (env : HandlerEnv)
    (idempotencyPersisted : Bool) : HandlerResult × List Effect :=
  match freshPathConfigGate input with
  | some result => (result, [])
  | none =>
    match insertProcessingCheckout env.insertEnv idempotencyPersisted with
    | .error _ => (.failure 500 "payment_log_unavailable", [Effect.insertCheckout])
    | .ok outcome =>
      match outcome.reusedCheckout with
      | some reused =>
        (.success (getCheckoutResponseHttpStatus reused.status)
          (buildPaymentResponse
            { status := reused.status, checkoutId := some reused.id,
              amountCents := jsOrInt reused.amount_cents input.amountCents,
              installments := jsOrInt reused.installments input.installments,
              reference := jsOrStr reused.reference,
              tid := reused.provider_tid,
              authorizationCode := reused.provider_authorization_code,
              returnCode := reused.provider_return_code,
              returnMessage := reused.provider_return_message,
              redirectUrl := reused.provider_three_d_secure_url,
              idempotencyKey := input.idempotencyKey,
              idempotentReused := true,
              idempotencyPersisted := outcome.idempotencyPersisted }),
         [Effect.insertCheckout])
      | none => chargeAndSettle input env outcome.checkoutId outcome.idempotencyPersisted

/-- Lines 872-1189 of src/api/payments.ts, starting at the idempotency
    lookup: a thrown lookup error is the 500
    `payment_idempotency_lookup_failed` response; a found record bound to
    a different lead is the 409 conflict; a found record of the same lead
    (or unbound) is replayed as-is; otherwise the fresh-charge path
    runs. -/
def checkoutPhase (input : CheckoutPhaseInput) (env : HandlerEnv) :
    HandlerResult × List Effect :=
  match resolveExistingCheckout env with
  | .error _ => (.failure 500 "payment_idempotency_lookup_failed", [])
  | .ok (idempotencyPersisted, some existingCheckout) =>
    if existingCheckout.lead_id.isSome &&
        existingCheckout.lead_id != some input.leadId then
      (.failure 409 "idempotency_key_conflict", [])
    else
      (.success (getCheckoutResponseHttpStatus existingCheckout.status)
        (buildPaymentResponse
          { status := existingCheckout.status,
            checkoutId := some existingCheckout.id,
            amountCents := jsOrInt existingCheckout.amount_cents input.amountCents,
            installments := jsOrInt existingCheckout.installments input.installments,
            reference := jsOrStr existingCheckout.reference,
            tid := existingCheckout.provider_tid,
            authorizationCode := existingCheckout.provider_authorization_code,
            returnCode := existingCheckout.provider_return_code,
            returnMessage := existingCheckout.provider_return_message,
            redirectUrl := existingCheckout.provider_three_d_secure_url,
            idempotencyKey := input.idempotencyKey,
            idempotentReused := true,
            idempotencyPersisted := idempotencyPersisted }),
       [])
  | .ok (idempotencyPersisted, none) => freshPath input env idempotencyPersisted

/-- The provider configuration gate of `freshPath` passes (mock mode, or a
    loaded configuration whose environment matches a production
    runtime). -/
def configGateOpen (input : CheckoutPhaseInput) : Bool :=
  !input.providerIsRede ||
    (match input.redeConfig with
     | .ok environmentIsProduction =>
       !(input.isProductionRuntime && !environmentIsProduction)
     | .error => false)

/-- No two adjacent dashes occur in the list (the shape guaranteed by the
    dash-run collapse of `normalizeIdempotencyKey`). -/
def noDashRun : List Char → Bool
  | [] => true
  | [_] => true
  | a :: b :: rest => !(a == '-' && b == '-') && noDashRun (b :: rest)

/-! ## Concrete fixtures used by the witness theorems -/

def payloadW : RedeCreditTransactionRequest :=
  { amount := 49900, reference := "chk-course-abc", installments := 1,
    cardHolderName := "ANA SILVA", cardNumber := "4242424242424242",
    expirationMonth := "01", expirationYear := "2030",
    securityCode := "123", capture := true, softDescriptor := none }

def entropyW1 : MockEntropy :=
  { nowBase36 := "T1", tidRandomHex := "AA11", authRandomHex := "B1B1B1" }

def entropyW2 : MockEntropy :=
  { nowBase36 := "T2", tidRandomHex := "CC22", authRandomHex := "D2D2D2" }

def rowW : CheckoutStateRow :=
  { id := "chk-1", lead_id := none, reference := "chk-course-abc",
    status := "approved", amount_cents := 49900, installments := 1,
    provider_tid := some "TID1", provider_return_code := some "00",
    provider_return_message := some "Approved",
    provider_authorization_code := some "A1",
    provider_three_d_secure_url := none }

def rowOtherLeadW : CheckoutStateRow :=
  { rowW with lead_id := some "11111111-1111-4111-8111-111111111111" }

def inputW : CheckoutPhaseInput :=
  { leadId := "22222222-2222-4222-8222-222222222222", amountCents := 49900,
    installments := 1, idempotencyKey := "key-12345678",
    reference := "chk-course-abc", providerIsRede := false,
    redeConfig := .ok false, isProductionRuntime := false }

def prW : RedeProviderResult :=
  { ok := true, httpStatus := 200,
    data := { tid := some "TID9", reference := some "chk-course-abc",
              returnCode := some "00",
              returnMessage := some "Approved (mock)",
              authorizationCode := some "ABC123", brand := some "Visa",
              threeDSecureUrl := none, mock := some true,
              mockMaskedCard := none } }

def insertEnvW : InsertEnv :=
  { dbInsert := fun _ => .ok "chk-new", conflictLookupDb := .ok none }

def insertEnvConflictW : InsertEnv :=
  { dbInsert := fun a =>
      if a.includeIdempotency then .error "23505" else .ok "chk-new",
    conflictLookupDb := .ok (some rowW) }

def insertEnvAll42703W : InsertEnv :=
  { dbInsert := fun _ => .error "42703", conflictLookupDb := .ok none }

def envReuseW : HandlerEnv :=
  { keyLookupDb1 := .ok (some rowW), schemaReady := false,
    keyLookupDb2 := .ok none, refLookupDb := .ok none,
    refLookupFallbackDb := .ok none, insertEnv := insertEnvW,
    gateway := .ok prW, checkoutUpdateOk := true, leadUpdateOk := true,
    failureCheckoutUpdateOk := true, failureLeadUpdateOk := true }

def envConflictW : HandlerEnv :=
  { envReuseW with keyLookupDb1 := .ok (some rowOtherLeadW) }

def envFreshW : HandlerEnv :=
  { envReuseW with keyLookupDb1 := .ok none }

/-! ## Helper lemmas -/

lemma applyLeadPaymentUpdate_keeps_paid_at (row : LeadPaymentProjection)
    (u : LeadPaymentUpdate) (now t : Nat) (h : row.paid_at = some t) :
    (applyLeadPaymentUpdate row u now).paid_at = some t := by
  cases u with
  | settle status reference tid returnCode returnMessage =>
    simp only [applyLeadPaymentUpdate, h]
    split <;> simp
  | providerFailure reference message =>
    simpa [applyLeadPaymentUpdate] using h

lemma foldl_applyLeadPaymentUpdate_keeps_paid_at
    (updates : List (LeadPaymentUpdate × Nat)) (row : LeadPaymentProjection)
    (t : Nat) (h : row.paid_at = some t) :
    (updates.foldl (fun r p => applyLeadPaymentUpdate r p.1 p.2) row).paid_at
      = some t := by
  induction updates generalizing row with
  | nil => simpa using h
  | cons p rest ih =>
    simp only [List.foldl_cons]
    exact ih _ (applyLeadPaymentUpdate_keeps_paid_at _ _ _ _ h)

lemma freshPathConfigGate_none (input : CheckoutPhaseInput)
    (h : configGateOpen input = true) : freshPathConfigGate input = none := by
  unfold configGateOpen at h
  unfold freshPathConfigGate
  cases hp : input.providerIsRede with
  | false => simp
  | true =>
    rw [hp] at h
    cases hc : input.redeConfig with
    | error => rw [hc] at h; simp at h
    | ok environmentIsProduction =>
      rw [hc] at h
      cases hpr : input.isProductionRuntime <;>
        cases hep : environmentIsProduction <;> simp_all

/-! ## Claim theorems -/

/-- C9: the gateway timeout computed by `getRedeConfig` is 15000 ms when
    `REDE_TIMEOUT_MS` is unset, and every configured value yields a
    timeout inside the range from 1000 ms to 60000 ms (values below the
    range or non-numeric fall back to the 15000 ms default, values above
    it are capped at 60000 ms). -/
theorem rede_timeout_default_and_bounded :
    getRedeConfigTimeoutMs none = 15000 ∧
    ∀ v : Option (Option ℚ),
      1000 ≤ getRedeConfigTimeoutMs v ∧ getRedeConfigTimeoutMs v ≤ 60000 := by
  have bounds : ∀ p : Option ℚ,
      1000 ≤ parseTimeoutMs p ∧ parseTimeoutMs p ≤ 60000 := by
    intro p
    cases p with
    | none => norm_num [parseTimeoutMs]
    | some q =>
      simp only [parseTimeoutMs]
      by_cases h1 : q < 1000
      · simp [h1]
      · by_cases h2 : q > 60000
        · simp [h1, h2]
        · have hq1 : (1000 : ℚ) ≤ q := not_lt.mp h1
          have hq2 : q ≤ 60000 := not_lt.mp h2
          have hq0 : ¬q < 0 := not_lt.mpr (le_trans (by norm_num) hq1)
          simp only [h1, h2, if_false, jsTrunc, hq0]
          constructor
          · exact_mod_cast Int.le_floor.mpr (by exact_mod_cast hq1)
          · calc ⌊q⌋ ≤ ⌊(60000 : ℚ)⌋ := Int.floor_le_floor hq2
              _ = 60000 := by norm_num
  refine ⟨by norm_num [getRedeConfigTimeoutMs, parseTimeoutMs, jsTrunc], ?_⟩
  intro v
  cases v with
  | none => exact bounds (some 15000)
  | some p => exact bounds p

/-- C6: a lead-projection update sets `paid_at` only when the written
    status is `approved` and `paid_at` is currently null; a non-null
    `paid_at` is never overwritten, across any sequence of updates (first
    approval wins). -/
theorem paid_at_first_approval_wins (row : LeadPaymentProjection)
    (u : LeadPaymentUpdate) (now t : Nat) :
    (row.paid_at = some t → (applyLeadPaymentUpdate row u now).paid_at = some t) ∧
    ((applyLeadPaymentUpdate row u now).paid_at ≠ row.paid_at →
      row.paid_at = none ∧ leadUpdateStatus u = "approved" ∧
        (applyLeadPaymentUpdate row u now).paid_at = some now) ∧
    (∀ updates : List (LeadPaymentUpdate × Nat), row.paid_at = some t →
      (updates.foldl (fun r p => applyLeadPaymentUpdate r p.1 p.2) row).paid_at
        = some t) := by
  refine ⟨applyLeadPaymentUpdate_keeps_paid_at row u now t, ?_,
    fun updates h => foldl_applyLeadPaymentUpdate_keeps_paid_at updates row t h⟩
  intro hchanged
  cases u with
  | settle status reference tid returnCode returnMessage =>
    simp only [applyLeadPaymentUpdate] at hchanged ⊢
    by_cases hs : status = "approved"
    · cases hpa : row.paid_at with
      | none => simp [leadUpdateStatus, hs, hpa]
      | some t0 => simp [hs, hpa] at hchanged
    · simp [hs] at hchanged
  | providerFailure reference message =>
    simp [applyLeadPaymentUpdate] at hchanged

/-- C6 witness: a projection whose `paid_at` is already set keeps it
    unchanged through a further approved settle update. -/
theorem paid_at_first_approval_wins_witness :
    (applyLeadPaymentUpdate
      { payment_status := some "approved", payment_reference := none,
        payment_tid := none, payment_return_code := none,
        payment_return_message := none, paid_at := some 5 }
      (.settle "approved" "chk-course-abc" (some "TID2") (some "00") none)
      99).paid_at = some 5 :=
  (paid_at_first_approval_wins
    { payment_status := some "approved", payment_reference := none,
      payment_tid := none, payment_return_code := none,
      payment_return_message := none, paid_at := some 5 }
    (.settle "approved" "chk-course-abc" (some "TID2") (some "00") none)
    99 5).1 rfl

/-- C8 counterexample: `createMockCreditTransaction` is not a pure
    function of the request payload alone: the same payload charged at
    two different timestamps / random draws yields different results
    (the tid and authorization code differ). -/
theorem mock_transaction_not_invocation_independent :
    createMockCreditTransaction payloadW entropyW1 ≠
      createMockCreditTransaction payloadW entropyW2 := by
  decide

/-- C8 (amended): the business fields of a mock transaction — ok flag,
    HTTP status, return code, return message, 3-D-Secure URL, brand and
    echoed reference — are a pure function of the request payload,
    identical across invocations; only the tid and (for approvals) the
    authorization code incorporate the timestamp and random bytes. -/
theorem mock_business_fields_deterministic
    (payload : RedeCreditTransactionRequest) (e1 e2 : MockEntropy) :
    mockBusinessFields (createMockCreditTransaction payload e1) =
      mockBusinessFields (createMockCreditTransaction payload e2) := by
  dsimp only [createMockCreditTransaction, mockBusinessFields]
  split_ifs <;> rfl

lemma insertProcessingLoop_fatal_iff (env : InsertEnv)
    (l : List InsertAttempt) :
    insertProcessingLoop env l = .error .schemaIncompatible ↔
      ∀ a ∈ l, env.dbInsert a = .error "42703" := by
  induction l with
  | nil => simp [insertProcessingLoop]
  | cons a rest ih =>
    simp only [insertProcessingLoop]
    cases hdb : env.dbInsert a with
    | ok id => simp [hdb]
    | error code =>
      by_cases h1 : code = "23505" ∧ a.includeIdempotency = true
      · obtain ⟨hc, hi⟩ := h1
        subst hc
        cases hlk : loadCheckoutByIdempotencyKey env.conflictLookupDb with
        | error c =>
          simp [hdb, hi, hlk, (by decide : ¬(("23505" : String) = "42703"))]
        | ok lookup =>
          cases hchk : lookup.checkout with
          | some checkout =>
            simp [hdb, hi, hlk, hchk,
              (by decide : ¬(("23505" : String) = "42703"))]
          | none =>
            simp [hdb, hi, hlk, hchk,
              (by decide : ¬(("23505" : String) = "42703"))]
      · by_cases h2 : code = "42703"
        · subst h2
          simp [hdb, ih, (by decide : ¬(("42703" : String) = "23505"))]
        · simp [hdb, h1, h2]

/-- C2: `insertProcessingCheckout` walks the fixed ordered attempt list —
    full column set, then without `idempotency_key`, then also without
    `lead_id` — moving to the next narrower set on each missing-column
    (42703) failure, and raises the fatal
    `payment_checkout_schema_incompatible` error exactly when every
    attempt in the list failed with a missing-column error. -/
theorem insert_processing_schema_fallback (env : InsertEnv)
    (idempotencyAvailable : Bool) :
    insertAttempts true = [⟨true, true⟩, ⟨true, false⟩, ⟨false, false⟩] ∧
    insertAttempts false = [⟨true, false⟩, ⟨false, false⟩] ∧
    ("idempotency_key" ∈ checkoutInsertColumns ⟨true, true⟩ ∧
      "idempotency_key" ∉ checkoutInsertColumns ⟨true, false⟩ ∧
      "lead_id" ∈ checkoutInsertColumns ⟨true, false⟩ ∧
      "lead_id" ∉ checkoutInsertColumns ⟨false, false⟩) ∧
    (∀ (a : InsertAttempt) (rest : List InsertAttempt),
      env.dbInsert a = .error "42703" →
      insertProcessingLoop env (a :: rest) = insertProcessingLoop env rest) ∧
    (insertProcessingCheckout env idempotencyAvailable
        = .error .schemaIncompatible ↔
      ∀ a ∈ insertAttempts idempotencyAvailable,
        env.dbInsert a = .error "42703") := by
  refine ⟨by decide, by decide, by decide, ?_, ?_⟩
  · intro a rest hdb
    simp [insertProcessingLoop, hdb,
      (by decide : ¬(("42703" : String) = "23505"))]
  · exact insertProcessingLoop_fatal_iff env (insertAttempts idempotencyAvailable)

/-- C2 witness: with every attempt failing on a missing column, the
    fallback list is exhausted and the fatal schema-incompatible error is
    raised. -/
theorem insert_processing_schema_fallback_witness :
    insertProcessingCheckout insertEnvAll42703W true
      = .error .schemaIncompatible :=
  (insert_processing_schema_fallback insertEnvAll42703W true).2.2.2.2.mpr
    (fun _ _ => rfl)

/-- C3: a 23505 unique-index conflict on an attempt that included the
    idempotency column makes `insertProcessingCheckout` re-look-up the
    record by the idempotency key and return the existing record, with
    `reusedCheckout` set and `idempotencyPersisted` true, instead of
    propagating the conflict. -/
theorem insert_conflict_resolves_to_existing (env : InsertEnv)
    (chk : CheckoutStateRow)
    (h23505 : env.dbInsert ⟨true, true⟩ = .error "23505")
    (hlookup : env.conflictLookupDb = .ok (some chk)) :
    insertProcessingCheckout env true =
      .ok { checkoutId := some chk.id, reusedCheckout := some chk,
            idempotencyPersisted := true } ∧
    ∀ (attempt : InsertAttempt) (rest : List InsertAttempt),
      attempt.includeIdempotency = true →
      env.dbInsert attempt = .error "23505" →
      insertProcessingLoop env (attempt :: rest) =
        .ok { checkoutId := some chk.id, reusedCheckout := some chk,
              idempotencyPersisted := true } := by
  have step : ∀ (attempt : InsertAttempt) (rest : List InsertAttempt),
      attempt.includeIdempotency = true →
      env.dbInsert attempt = .error "23505" →
      insertProcessingLoop env (attempt :: rest) =
        .ok { checkoutId := some chk.id, reusedCheckout := some chk,
              idempotencyPersisted := true } := by
    intro attempt rest hi hdb
    simp [insertProcessingLoop, hdb, hi, loadCheckoutByIdempotencyKey, hlookup]
  refine ⟨?_, step⟩
  have : insertAttempts true = [⟨true, true⟩, ⟨true, false⟩, ⟨false, false⟩] :=
    by decide
  rw [insertProcessingCheckout, this]
  exact step ⟨true, true⟩ _ rfl h23505

/-- C3 witness: a concrete store in which the keyed insert collides and
    the re-lookup finds the concurrent winner's record. -/
theorem insert_conflict_resolves_to_existing_witness :
    insertProcessingCheckout insertEnvConflictW true =
      .ok { checkoutId := some "chk-1", reusedCheckout := some rowW,
            idempotencyPersisted := true } := by
  have h := (insert_conflict_resolves_to_existing insertEnvConflictW rowW
    rfl rfl).1
  simpa [rowW] using h

/-- C1: when the idempotency-key lookup (or the reference fallback) finds
    an existing checkout record whose lead linkage is null or equal to the
    requesting lead, the handler replays the record's stored business
    fields with `idempotent_reused = true`, performs no side effect at
    all: the gateway is never invoked and no checkout record is
    inserted. -/
theorem idempotent_reuse_replays_without_charge (input : CheckoutPhaseInput)
    (env : HandlerEnv) (persisted : Bool) (existing : CheckoutStateRow)
    (hfound : resolveExistingCheckout env = .ok (persisted, some existing))
    (hlead : existing.lead_id = none ∨ existing.lead_id = some input.leadId) :
    (checkoutPhase input env).2 = [] ∧
    ∃ body,
      (checkoutPhase input env).1 =
        .success (getCheckoutResponseHttpStatus existing.status) body ∧
      body.status = existing.status ∧
      body.tid = existing.provider_tid ∧
      body.returnCode = existing.provider_return_code ∧
      body.authorizationCode = existing.provider_authorization_code ∧
      body.redirectUrl = existing.provider_three_d_secure_url ∧
      body.idempotentReused = true := by
  have hguard : (existing.lead_id.isSome &&
      existing.lead_id != some input.leadId) = false := by
    rcases hlead with h | h <;> simp [h]
  simp only [checkoutPhase, hfound, hguard, Bool.false_eq_true, if_false]
  exact ⟨trivial, _, rfl, rfl, rfl, rfl, rfl, rfl, rfl⟩

/-- C1 witness: a stored approved checkout with no lead linkage is
    replayed with its stored fields and no side effects. -/
theorem idempotent_reuse_replays_without_charge_witness :
    (checkoutPhase inputW envReuseW).2 = [] ∧
    ∃ body,
      (checkoutPhase inputW envReuseW).1 =
        .success (getCheckoutResponseHttpStatus rowW.status) body ∧
      body.status = rowW.status ∧
      body.tid = rowW.provider_tid ∧
      body.returnCode = rowW.provider_return_code ∧
      body.authorizationCode = rowW.provider_authorization_code ∧
      body.redirectUrl = rowW.provider_three_d_secure_url ∧
      body.idempotentReused = true :=
  idempotent_reuse_replays_without_charge inputW envReuseW true rowW rfl
    (Or.inl rfl)

/-- C4: a found checkout record bound to a different lead than the
    requester is rejected with 409 `idempotency_key_conflict`, and no
    side effect occurs — the record is neither reassigned nor reused. -/
theorem idempotency_key_conflict_rejects (input : CheckoutPhaseInput)
    (env : HandlerEnv) (persisted : Bool) (existing : CheckoutStateRow)
    (otherLeadId : String)
    (hfound : resolveExistingCheckout env = .ok (persisted, some existing))
    (hbound : existing.lead_id = some otherLeadId)
    (hne : otherLeadId ≠ input.leadId) :
    checkoutPhase input env = (.failure 409 "idempotency_key_conflict", []) := by
  have hguard : (existing.lead_id.isSome &&
      existing.lead_id != some input.leadId) = true := by
    simp [hbound, hne]
  simp [checkoutPhase, hfound, hguard]

/-- C4 witness: a record bound to one lead, re-presented by another lead,
    yields the 409 conflict with no effects. -/
theorem idempotency_key_conflict_rejects_witness :
    checkoutPhase inputW envConflictW =
      (.failure 409 "idempotency_key_conflict", []) :=
  idempotency_key_conflict_rejects inputW envConflictW true rowOtherLeadW
    "11111111-1111-4111-8111-111111111111" rfl rfl (by decide)

/-- C5: on the fresh-charge path the settled status is `approved` exactly
    when the trimmed gateway return code is "00"; otherwise it is
    `pending_authentication` exactly when a 3-D-Secure redirect URL is
    present (even with a non-zero return code); otherwise `declined` —
    and this status is both returned to the client and written to the
    checkout record. -/
theorem settle_status_mapping (input : CheckoutPhaseInput) (env : HandlerEnv)
    (persisted : Bool) (outcome : CheckoutInsertOutcome)
    (pr : RedeProviderResult)
    (hresolve : resolveExistingCheckout env = .ok (persisted, none))
    (hgate : configGateOpen input = true)
    (hinsert : insertProcessingCheckout env.insertEnv persisted = .ok outcome)
    (hreuse : outcome.reusedCheckout = none)
    (hgw : env.gateway = .ok pr)
    (hcred : credentialsError input pr = false) :
    (settleStatus pr.data = "approved" ↔ getReturnCode pr.data = "00") ∧
    (getReturnCode pr.data ≠ "00" →
      (settleStatus pr.data = "pending_authentication" ↔
        (getThreeDSecureUrl pr.data).isSome = true)) ∧
    (getReturnCode pr.data ≠ "00" →
      (getThreeDSecureUrl pr.data).isSome = false →
      settleStatus pr.data = "declined") ∧
    (∃ body, (checkoutPhase input env).1 = .success 200 body ∧
      body.status = settleStatus pr.data) ∧
    (∀ id, outcome.checkoutId = some id → env.checkoutUpdateOk = true →
      Effect.updateCheckoutStatus id (settleStatus pr.data)
        ∈ (checkoutPhase input env).2) := by
  have hmap1 : settleStatus pr.data = "approved" ↔
      getReturnCode pr.data = "00" := by
    unfold settleStatus
    by_cases h00 : getReturnCode pr.data = "00"
    · simp [h00]
    · by_cases h3ds : (getThreeDSecureUrl pr.data).isSome
      · simp [h00, h3ds]
      · simp [h00, h3ds]
  have hmap2 : getReturnCode pr.data ≠ "00" →
      (settleStatus pr.data = "pending_authentication" ↔
        (getThreeDSecureUrl pr.data).isSome = true) := by
    intro h00
    unfold settleStatus
    by_cases h3ds : (getThreeDSecureUrl pr.data).isSome
    · simp [h00, h3ds]
    · simp [h00, h3ds]
  have hmap3 : getReturnCode pr.data ≠ "00" →
      (getThreeDSecureUrl pr.data).isSome = false →
      settleStatus pr.data = "declined" := by
    intro h00 h3ds
    unfold settleStatus
    simp [h00, h3ds]
  have hrun : checkoutPhase input env =
      chargeAndSettle input env outcome.checkoutId
        outcome.idempotencyPersisted := by
    simp only [checkoutPhase, hresolve, freshPath,
      freshPathConfigGate_none input hgate, hinsert, hreuse]
  refine ⟨hmap1, hmap2, hmap3, ?_, ?_⟩
  · rw [hrun]
    simp only [chargeAndSettle, hgw, hcred, Bool.false_eq_true, if_false]
    exact ⟨_, rfl, rfl⟩
  · intro id hid hok
    rw [hrun]
    simp [chargeAndSettle, hgw, hcred, hid, hok]

/-- C5 witness: a concrete fresh charge whose gateway result has return
    code "00" settles and responds with status `approved`. -/
theorem settle_status_mapping_witness :
    (settleStatus prW.data = "approved" ↔ getReturnCode prW.data = "00") ∧
    (∃ body, (checkoutPhase inputW envFreshW).1 = .success 200 body ∧
      body.status = settleStatus prW.data) ∧
    Effect.updateCheckoutStatus "chk-new" (settleStatus prW.data)
      ∈ (checkoutPhase inputW envFreshW).2 := by
  have h := settle_status_mapping inputW envFreshW true
    { checkoutId := some "chk-new", reusedCheckout := none,
      idempotencyPersisted := true }
    prW rfl rfl rfl rfl rfl rfl
  exact ⟨h.1, h.2.2.2.1, h.2.2.2.2 "chk-new" rfl rfl⟩

/-- C10: once the gateway has responded on the fresh-charge path, failures
    of the follow-up checkout-record or lead-projection updates do not
    change the handler's response: it still returns the gateway-derived
    HTTP 200 body with `idempotent_reused = false`. -/
theorem settle_update_failures_do_not_change_response
    (input : CheckoutPhaseInput) (env : HandlerEnv) (persisted : Bool)
    (outcome : CheckoutInsertOutcome) (pr : RedeProviderResult)
    (checkoutUpdateSucceeds leadUpdateSucceeds : Bool)
    (hresolve : resolveExistingCheckout env = .ok (persisted, none))
    (hgate : configGateOpen input = true)
    (hinsert : insertProcessingCheckout env.insertEnv persisted = .ok outcome)
    (hreuse : outcome.reusedCheckout = none)
    (hgw : env.gateway = .ok pr)
    (hcred : credentialsError input pr = false) :
    (checkoutPhase input
        { env with checkoutUpdateOk := checkoutUpdateSucceeds,
                   leadUpdateOk := leadUpdateSucceeds }).1 =
      (checkoutPhase input env).1 ∧
    ∃ body, (checkoutPhase input env).1 = .success 200 body ∧
      body.idempotentReused = false ∧
      body.status = settleStatus pr.data ∧
      body.tid = sanitizeString pr.data.tid 120 ∧
      body.returnCode = jsOrStr (getReturnCode pr.data) := by
  have hrun : ∀ b1 b2 : Bool,
      checkoutPhase input
          { env with checkoutUpdateOk := b1, leadUpdateOk := b2 } =
        chargeAndSettle input
          { env with checkoutUpdateOk := b1, leadUpdateOk := b2 }
          outcome.checkoutId outcome.idempotencyPersisted := by
    intro b1 b2
    have hresolve2 : resolveExistingCheckout
        { env with checkoutUpdateOk := b1, leadUpdateOk := b2 } =
        .ok (persisted, none) := hresolve
    have hinsert2 : insertProcessingCheckout
        (HandlerEnv.insertEnv { env with checkoutUpdateOk := b1, leadUpdateOk := b2 })
        persisted = .ok outcome := hinsert
    simp only [checkoutPhase, hresolve2, freshPath,
      freshPathConfigGate_none input hgate, hinsert2, hreuse]
  have henv : env = { env with checkoutUpdateOk := env.checkoutUpdateOk, leadUpdateOk := env.leadUpdateOk } := rfl
  constructor
  · rw [hrun checkoutUpdateSucceeds leadUpdateSucceeds]
    conv_rhs => rw [henv, hrun env.checkoutUpdateOk env.leadUpdateOk]
    simp only [chargeAndSettle, hgw, hcred, Bool.false_eq_true, if_false]
  · rw [henv, hrun env.checkoutUpdateOk env.leadUpdateOk]
    simp only [chargeAndSettle, hgw, hcred, Bool.false_eq_true, if_false]
    exact ⟨_, rfl, rfl, rfl, rfl, rfl⟩

/-- C10 witness: with both follow-up updates failing, the concrete fresh
    charge still responds 200 with the gateway-derived fields and
    `idempotent_reused = false`. -/
theorem settle_update_failures_do_not_change_response_witness :
    (checkoutPhase inputW
        { envFreshW with checkoutUpdateOk := false,
                         leadUpdateOk := false }).1 =
      (checkoutPhase inputW envFreshW).1 ∧
    ∃ body, (checkoutPhase inputW envFreshW).1 = .success 200 body ∧
      body.idempotentReused = false ∧
      body.status = settleStatus prW.data ∧
      body.tid = sanitizeString prW.data.tid 120 ∧
      body.returnCode = jsOrStr (getReturnCode prW.data) :=
  settle_update_failures_do_not_change_response inputW envFreshW true
    { checkoutId := some "chk-new", reusedCheckout := none,
      idempotencyPersisted := true }
    prW false false rfl rfl rfl rfl rfl rfl

lemma replaceDisallowed_allowed (l : List Char) :
    ∀ c ∈ replaceDisallowed l, isIdemAllowedChar c = true := by
  intro c hc
  simp only [replaceDisallowed, List.mem_map] at hc
  obtain ⟨d, _, rfl⟩ := hc
  by_cases hd : isIdemAllowedChar d = true
  · simp [hd]
  · simp only [Bool.not_eq_true] at hd
    simp [hd]
    decide

lemma collapseDashesAux_mem (b : Bool) (l : List Char) :
    ∀ x ∈ collapseDashesAux b l, x ∈ l := by
  induction l generalizing b with
  | nil => simp [collapseDashesAux]
  | cons c rest ih =>
    intro x hx
    simp only [collapseDashesAux] at hx
    cases hc : (c == '-') with
    | true =>
      rw [hc] at hx
      cases b with
      | true =>
        simp only [if_true] at hx
        exact List.mem_cons_of_mem _ (ih true x hx)
      | false =>
        simp only [if_true, Bool.false_eq_true, if_false] at hx
        rcases List.mem_cons.mp hx with hx | hx
        · subst hx
          have hcd : c = '-' := eq_of_beq hc
          rw [hcd]
          exact List.mem_cons_self _ _
        · exact List.mem_cons_of_mem _ (ih true x hx)
    | false =>
      rw [hc] at hx
      simp only [Bool.false_eq_true, if_false] at hx
      rcases List.mem_cons.mp hx with hx | hx
      · subst hx; exact List.mem_cons_self _ _
      · exact List.mem_cons_of_mem _ (ih false x hx)

lemma collapseDashesAux_true_head (l : List Char) :
    (collapseDashesAux true l).head? ≠ some '-' := by
  induction l with
  | nil => simp [collapseDashesAux]
  | cons c rest ih =>
    simp only [collapseDashesAux]
    cases hc : (c == '-') with
    | true => simpa [hc] using ih
    | false =>
      simp only [hc, Bool.false_eq_true, if_false, List.head?_cons]
      intro h
      rw [Option.some.injEq] at h
      subst h
      simp at hc

lemma noDashRun_cons_of (x : Char) (l : List Char)
    (hx : x ≠ '-' ∨ l.head? ≠ some '-') (hl : noDashRun l = true) :
    noDashRun (x :: l) = true := by
  cases l with
  | nil => rfl
  | cons b rest =>
    have hfirst : (x == '-' && b == '-') = false := by
      rcases hx with hx | hx
      · simp [beq_eq_false_iff_ne.mpr hx]
      · have hb : b ≠ '-' := by
          intro h
          exact hx (by rw [List.head?_cons, h])
        simp [beq_eq_false_iff_ne.mpr hb]
    simp [noDashRun, hfirst, hl]

lemma noDashRun_collapseDashesAux (b : Bool) (l : List Char) :
    noDashRun (collapseDashesAux b l) = true := by
  induction l generalizing b with
  | nil => rfl
  | cons c rest ih =>
    simp only [collapseDashesAux]
    cases hc : (c == '-') with
    | true =>
      cases b with
      | true =>
        show noDashRun (collapseDashesAux true rest) = true
        exact ih true
      | false =>
        show noDashRun ('-' :: collapseDashesAux true rest) = true
        exact noDashRun_cons_of _ _
          (Or.inr (collapseDashesAux_true_head rest)) (ih true)
    | false =>
      show noDashRun (c :: collapseDashesAux false rest) = true
      have hcne : c ≠ '-' := by
        intro h; subst h; simp at hc
      exact noDashRun_cons_of _ _ (Or.inl hcne) (ih false)

lemma noDashRun_take (l : List Char) (n : Nat) (h : noDashRun l = true) :
    noDashRun (l.take n) = true := by
  induction l generalizing n with
  | nil => cases n <;> simpa using h
  | cons a rest ih =>
    cases n with
    | zero => rfl
    | succ m =>
      rw [List.take_succ_cons]
      cases rest with
      | nil => cases m <;> rfl
      | cons b rest2 =>
        have hsplit : (!(a == '-' && b == '-')) = true ∧
            noDashRun (b :: rest2) = true := by
          simpa [noDashRun, Bool.and_eq_true] using h
        cases m with
        | zero => rfl
        | succ k =>
          rw [List.take_succ_cons]
          have hrec : noDashRun (b :: List.take k rest2) = true := by
            have hk := ih (n := k + 1) hsplit.2
            rwa [List.take_succ_cons] at hk
          simp [noDashRun, hrec, hsplit.1]

/-- C7: an explicitly supplied idempotency key is normalized by replacing
    every character outside the allowed class by a dash, collapsing dash
    runs and truncating to 120 characters; the result has only allowed
    characters, no dash runs, and length at most 120; a normalized result
    shorter than 8 characters makes the request fail with
    400 `invalid_idempotency_key` instead of falling back to the
    automatic key. -/
theorem explicit_idempotency_key_normalization (raw auto : String)
    (hraw : raw ≠ "") :
    (∀ k, normalizeIdempotencyKey raw = some k →
      8 ≤ k.length ∧ k.length ≤ 120 ∧
      (∀ c ∈ k.data, isIdemAllowedChar c = true) ∧
      noDashRun k.data = true ∧
      k.data = (collapseDashes (replaceDisallowed (jsTrim raw).data)).take 120 ∧
      resolveRequestIdempotencyKey raw auto = .ok k) ∧
    (normalizeIdempotencyKey raw = none →
      resolveRequestIdempotencyKey raw auto =
        .error (400, "invalid_idempotency_key")) := by
  constructor
  · intro k hk
    have hk0 := hk
    unfold normalizeIdempotencyKey at hk
    by_cases ht : jsTrim raw = ""
    · simp [ht] at hk
    · simp only [ht, if_false] at hk
      by_cases hlen :
          (String.mk ((collapseDashes (replaceDisallowed (jsTrim raw).data)).take 120)).length < 8
      · rw [if_pos hlen] at hk
        exact absurd hk (by simp)
      · rw [if_neg hlen] at hk
        rw [Option.some.injEq] at hk
        subst hk
        have hdata : (String.mk ((collapseDashes (replaceDisallowed (jsTrim raw).data)).take 120)).data
            = (collapseDashes (replaceDisallowed (jsTrim raw).data)).take 120 := rfl
        refine ⟨not_lt.mp hlen, ?_, ?_, ?_, hdata, ?_⟩
        · show ((collapseDashes (replaceDisallowed (jsTrim raw).data)).take 120).length ≤ 120
          exact List.length_take_le _ _
        · intro c hc
          rw [hdata] at hc
          have hc2 := List.take_subset _ _ hc
          have hc3 := collapseDashesAux_mem false _ c hc2
          exact replaceDisallowed_allowed _ c hc3
        · rw [hdata]
          exact noDashRun_take _ _ (noDashRun_collapseDashesAux false _)
        · simp [resolveRequestIdempotencyKey, hk0]
  · intro hn
    simp [resolveRequestIdempotencyKey, hn, hraw]

/-- C7 witness: a raw key with disallowed characters normalizes to a
    collapsed, allowed-character key that is used verbatim, and a
    too-short raw key is rejected with 400 `invalid_idempotency_key`. -/
theorem explicit_idempotency_key_normalization_witness :
    (8 ≤ ("pay-key-123" : String).length ∧
      ("pay-key-123" : String).length ≤ 120 ∧
      (∀ c ∈ ("pay-key-123" : String).data, isIdemAllowedChar c = true) ∧
      noDashRun ("pay-key-123" : String).data = true ∧
      ("pay-key-123" : String).data =
        (collapseDashes (replaceDisallowed (jsTrim "pay!!key##123").data)).take 120 ∧
      resolveRequestIdempotencyKey "pay!!key##123" "auto-k" =
        .ok "pay-key-123") ∧
    resolveRequestIdempotencyKey "ab" "auto-k" =
      .error (400, "invalid_idempotency_key") :=
  ⟨(explicit_idempotency_key_normalization "pay!!key##123" "auto-k"
      (by decide)).1 "pay-key-123" (by rfl),
    (explicit_idempotency_key_normalization "ab" "auto-k"
      (by decide)).2 (by rfl)⟩

end ApiDemo
